import Mathlib

/-!
Verification of the molten-rs schema/validation core and workflow engine.

Shallow embedding of:
- `molten-core/src/field.rs` (FieldType, FieldDefinition, FieldBuilder),
- `molten-core/src/form.rs` (FormDefinition),
- `molten-core/src/workflow.rs` (Phase, Transition, WorkflowDefinition,
  WorkflowBuilder, validate_workflow_integrity),
- `molten-core/src/document.rs` (Document),
- `molten-document/src/validator.rs` (validate_document, validate_value),
- `molten-workflow/src/engine.rs` (transition) and its error type.

JSON values (`serde_json::Value`) are modelled with numbers as rationals, and
the `validator` crate string-length rule counts characters, matching
Lean's `String.length`.
-/

namespace Molten

/-- Model of `serde_json::Value`. Objects keep field order as in the
serialized form; numbers are modelled as rationals. -/
inductive Json where
  | null
  | bool (b : Bool)
  | num (q : ℚ)
  | str (s : String)
  | arr (items : List Json)
  | obj (fields : List (String × Json))

/-- `Value::is_null`. -/
def Json.isNull : Json → Bool
  | .null => true
  | _ => false

/-- Model of `FieldType` from `molten-core/src/field.rs`. -/
inductive FieldType where
  | Text
  | TextArea
  | Number (min max : Option ℚ)
  | Boolean
  | DateTime
  | Select (options : List String) (allow_multiple : Bool)
deriving DecidableEq

/-- Model of `FieldDefinition` from `molten-core/src/field.rs`. -/
structure FieldDefinition where
  id : String
  label : String
  field_type : FieldType
  required : Bool
  description : Option String
deriving DecidableEq

/-- One structured validation finding (`validator::ValidationError`):
the offending field path and the violated rule code. -/
structure ValidationFinding where
  path : String
  code : String
deriving DecidableEq

/-- The `#[validate(length(min = lo, max = hi))]` rule of the `validator`
crate on a string field: emits a `length` finding when violated. -/
def lengthFindings (path : String) (lo hi : Nat) (s : String) : List ValidationFinding :=
  if lo ≤ s.length ∧ s.length ≤ hi then [] else [⟨path, "length"⟩]

/-- The derived `Validate` impl of `FieldDefinition`: `id` length 1-64 and
`label` length 1-100 are the only declared rules (no character-class rule
is declared on `FieldDefinition`). -/
def FieldDefinition.validateFindings (d : FieldDefinition) : List ValidationFinding :=
  lengthFindings "id" 1 64 d.id ++ lengthFindings "label" 1 100 d.label

/-- Model of `FieldBuilder` from `molten-core/src/field.rs`. -/
structure FieldBuilder where
  id : String
  label : String
  field_type : FieldType
  required : Bool
  description : Option String
deriving DecidableEq

/-- `FieldBuilder::build` via `TryFrom<FieldBuilder> for FieldDefinition`:
assemble the definition, run `validate()`, return it when no finding. -/
def FieldBuilder.build (b : FieldBuilder) :
    Except (List ValidationFinding) FieldDefinition :=
  let d : FieldDefinition :=
    ⟨b.id, b.label, b.field_type, b.required, b.description⟩
  if d.validateFindings = [] then .ok d else .error d.validateFindings

/-- Model of `FormDefinition` from `molten-core/src/form.rs` (the fields the
validator consumes; construction-time rules of the form are not needed here). -/
structure FormDefinition where
  id : String
  name : String
  version : Nat
  fields : List FieldDefinition

/-- Model of `PhaseType` from `molten-core/src/workflow.rs`. -/
inductive PhaseType where
  | Start
  | Normal
  | End
deriving DecidableEq

/-- Model of `Phase` from `molten-core/src/workflow.rs`. -/
structure Phase where
  id : String
  label : String
  phase_type : PhaseType
deriving DecidableEq

/-- Model of `Transition` from `molten-core/src/workflow.rs`; `from` is a
Lean keyword, hence the field names `from_` and `to_`. -/
structure Transition where
  name : String
  from_ : String
  to_ : String
deriving DecidableEq

/-- Model of `WorkflowDefinition` from `molten-core/src/workflow.rs`. -/
structure WorkflowDefinition where
  id : String
  name : String
  phases : List Phase
  transitions : List Transition
deriving DecidableEq

/-- `WorkflowGraph::can_transition` for `WorkflowDefinition`: some declared
transition has the given source and target. -/
def WorkflowDefinition.can_transition
    (wf : WorkflowDefinition) (current_phase target_phase : String) : Bool :=
  wf.transitions.any fun t => t.from_ == current_phase && t.to_ == target_phase

/-- `WorkflowGraph::get_phase` for `WorkflowDefinition`. -/
def WorkflowDefinition.get_phase
    (wf : WorkflowDefinition) (phase_id : String) : Option Phase :=
  wf.phases.find? fun p => p.id == phase_id

/-- `WorkflowGraph::get_start_phase` for `WorkflowDefinition`: the first
phase whose type is `Start`. -/
def WorkflowDefinition.get_start_phase (wf : WorkflowDefinition) : Option Phase :=
  wf.phases.find? fun p => p.phase_type == PhaseType.Start

/-- The derived `Validate` impl of `WorkflowDefinition`: `id` length 1-64,
`name` length 1-100, and the nested rules of every phase (`id` 1-64,
`label` 1-100) and every transition (`name` 1-100, `from`/`to` 1-64),
aggregated in declaration order. -/
def WorkflowDefinition.validateFindings (wf : WorkflowDefinition) : List ValidationFinding :=
  lengthFindings "id" 1 64 wf.id ++
  lengthFindings "name" 1 100 wf.name ++
  (wf.phases.flatMap fun p =>
    lengthFindings "phases.id" 1 64 p.id ++
    lengthFindings "phases.label" 1 100 p.label) ++
  (wf.transitions.flatMap fun t =>
    lengthFindings "transitions.name" 1 100 t.name ++
    lengthFindings "transitions.from" 1 64 t.from_ ++
    lengthFindings "transitions.to" 1 64 t.to_)

/-- `validate_workflow_integrity` from `molten-core/src/workflow.rs` as the
set of findings it accumulates: for every transition, `from` and `to` must
each name a phase of the workflow. -/
def validate_workflow_integrity_findings (wf : WorkflowDefinition) : List ValidationFinding :=
  wf.transitions.flatMap fun t =>
    (if wf.phases.any (fun p => p.id == t.from_) then []
     else [⟨"transitions", "invalid_transition_source"⟩]) ++
    (if wf.phases.any (fun p => p.id == t.to_) then []
     else [⟨"transitions", "invalid_transition_target"⟩])

/-- Model of `WorkflowBuilder` from `molten-core/src/workflow.rs`. -/
structure WorkflowBuilder where
  id : String
  name : String
  phases : List Phase
  transitions : List Transition
deriving DecidableEq

/-- `WorkflowBuilder::build` via `TryFrom<WorkflowBuilder>`: assemble the
definition, run `wf.validate()?` (structural pass), and only when that
returned no finding run `validate_workflow_integrity(&wf)?` — each pass
returns early with its own findings, mirroring the two `?` operators. -/
def WorkflowBuilder.build (b : WorkflowBuilder) :
    Except (List ValidationFinding) WorkflowDefinition :=
  let wf : WorkflowDefinition := ⟨b.id, b.name, b.phases, b.transitions⟩
  if wf.validateFindings = [] then
    if validate_workflow_integrity_findings wf = [] then .ok wf
    else .error (validate_workflow_integrity_findings wf)
  else .error wf.validateFindings

/-- Modelled from the spec: `Document` from `molten-core/src/document.rs`.
The copy of that file under `src/` is a stale revision lacking the
`workflow_id` and `current_phase` fields, while the engine, the validator
tests and the services all use them and call a three-argument
`Document::new`; the fields are taken from spec section 3 (`{id, form_id,
workflow_id, data, current_phase, created_at, updated_at}`). `data` is the
key-to-value map; timestamps are abstract instants. -/
structure Document where
  id : String
  form_id : String
  workflow_id : String
  data : List (String × Json)
  current_phase : String
  created_at : Nat
  updated_at : Nat

/-- Modelled from the spec: `Document::new` — created once with empty
`data` and empty `current_phase` (the uninitialized sentinel), both
timestamps set to the single `now` the constructor reads. -/
def Document.new (id form_id workflow_id : String) (now : Nat) : Document :=
  { id := id
    form_id := form_id
    workflow_id := workflow_id
    data := []
    current_phase := ""
    created_at := now
    updated_at := now }

/-- `Document::get_value`: lookup of a field id in the data map. -/
def Document.get_value (doc : Document) (field_id : String) : Option Json :=
  (doc.data.find? fun kv => kv.1 == field_id).map (·.2)

/-- Model of `WorkflowError` from `molten-workflow/src/error.rs`. -/
inductive WorkflowError where
  | WorkflowMismatch (doc_wf provided_wf : String)
  | UnknownPhase (phase : String)
  | InvalidTransition (current target : String)
  | NoCurrentPhase
deriving DecidableEq

/-- `transition` from `molten-workflow/src/engine.rs`. The Rust function
takes `&mut Document` and returns `Result<(), WorkflowError>`; the embedding
returns the document state after the call together with the error, if any
(every early error return leaves the document as it was, and the success
paths assign `current_phase` before returning `Ok`). -/
def transition (doc : Document) (workflow : WorkflowDefinition)
    (target_phase_id : String) : Document × Option WorkflowError :=
  if doc.workflow_id ≠ workflow.id then
    (doc, some (.WorkflowMismatch doc.workflow_id workflow.id))
  else if (workflow.get_phase target_phase_id).isNone then
    (doc, some (.UnknownPhase target_phase_id))
  else if doc.current_phase = "" then
    match workflow.get_start_phase with
    | some start_phase =>
      if start_phase.id = target_phase_id then
        ({ doc with current_phase := target_phase_id }, none)
      else
        (doc, some (.InvalidTransition "WAITING_TO_START" target_phase_id))
    | none => (doc, some (.UnknownPhase "No start phase defined"))
  else if workflow.can_transition doc.current_phase target_phase_id then
    ({ doc with current_phase := target_phase_id }, none)
  else
    (doc, some (.InvalidTransition doc.current_phase target_phase_id))

/-- Model of `DocumentValidationError` from `molten-document/src/error.rs`. -/
inductive DocumentValidationError where
  | MissingRequiredField (field : String)
  | InvalidType (field_id expected_type got_type : String)
  | ValueTooLow (field_id : String) (value min : ℚ)
  | ValueTooHigh (field_id : String) (value max : ℚ)
  | InvalidSelection (field_id value : String) (allowed : List String)
  | InvalidDateFormat (field_id value : String)
  | FormIdMismatch (doc_form def_id : String)
deriving DecidableEq

/-- `get_json_type` from `molten-document/src/validator.rs`. -/
def get_json_type : Json → String
  | .null => "Null"
  | .bool _ => "Boolean"
  | .num _ => "Number"
  | .str _ => "String"
  | .arr _ => "Array"
  | .obj _ => "Object"

/-- `Value::as_f64`: numbers only. -/
def Json.as_num : Json → Option ℚ
  | .num q => some q
  | _ => none

/-- `Value::as_str`. -/
def Json.as_str : Json → Option String
  | .str s => some s
  | _ => none

/-- Two ASCII digit characters read as a two-digit number. -/
def twoDigits (a b : Char) : Option Nat :=
  if a.isDigit && b.isDigit then
    some ((a.toNat - 48) * 10 + (b.toNat - 48))
  else none

/-- Numeric timezone offset or `Z`/`z`, ending the timestamp. -/
def rfc3339Offset : List Char → Bool
  | ['Z'] => true
  | ['z'] => true
  | [sg, a, b, ':', c, d] =>
    (sg == '+' || sg == '-') && a.isDigit && b.isDigit && c.isDigit && d.isDigit
  | _ => false

/-- Optional fractional seconds followed by the offset. -/
def rfc3339Frac : List Char → Bool
  | '.' :: rest =>
    (rest.takeWhile Char.isDigit ≠ []) && rfc3339Offset (rest.dropWhile Char.isDigit)
  | rest => rfc3339Offset rest

/-- Model of `chrono::DateTime::parse_from_rfc3339` as a Bool: the string
has the shape `YYYY-MM-DDTHH:MM:SS[.frac](Z|+HH:MM|-HH:MM)` with in-range
date and time components. (The chrono parser is external library code; the
exact calendar rules — month lengths, leap years — are abstracted to range
checks, which no claim exercises.) -/
def rfc3339Parses (s : String) : Bool :=
  match s.data with
  | y1 :: y2 :: y3 :: y4 :: '-' :: m1 :: m2 :: '-' :: d1 :: d2 :: t ::
      h1 :: h2 :: ':' :: mi1 :: mi2 :: ':' :: s1 :: s2 :: rest =>
    (y1.isDigit && y2.isDigit && y3.isDigit && y4.isDigit) &&
    (t == 'T' || t == 't' || t == ' ') &&
    (match twoDigits m1 m2 with | some m => 1 ≤ m && m ≤ 12 | none => false) &&
    (match twoDigits d1 d2 with | some d => 1 ≤ d && d ≤ 31 | none => false) &&
    (match twoDigits h1 h2 with | some h => h ≤ 23 | none => false) &&
    (match twoDigits mi1 mi2 with | some mi => mi ≤ 59 | none => false) &&
    (match twoDigits s1 s2 with | some sec => sec ≤ 60 | none => false) &&
    rfc3339Frac rest
  | _ => false

/-- Item loop of the `Select` multi-value branch of `validate_value`:
every element must be a string among `options`, first failure wins. -/
def checkSelectItems (field_id : String) (options : List String) :
    List Json → Except DocumentValidationError Unit
  | [] => .ok ()
  | item :: rest =>
    match item.as_str with
    | none => .error (.InvalidType field_id "String" (get_json_type item))
    | some s =>
      if options.contains s then checkSelectItems field_id options rest
      else .error (.InvalidSelection field_id s options)

/-- `validate_value` from `molten-document/src/validator.rs`: type and
constraint check of a single value against one field definition, with the
source's early-return (at most one error) behaviour. -/
def validate_value (value : Json) (field : FieldDefinition) :
    Except DocumentValidationError Unit :=
  match field.field_type with
  | .Text | .TextArea =>
    match value.as_str with
    | some _ => .ok ()
    | none => .error (.InvalidType field.id "String" (get_json_type value))
  | .Number min max =>
    match value.as_num with
    | none => .error (.InvalidType field.id "Number" (get_json_type value))
    | some num =>
      match min with
      | some min_val =>
        if num < min_val then .error (.ValueTooLow field.id num min_val)
        else
          match max with
          | some max_val =>
            if num > max_val then .error (.ValueTooHigh field.id num max_val)
            else .ok ()
          | none => .ok ()
      | none =>
        match max with
        | some max_val =>
          if num > max_val then .error (.ValueTooHigh field.id num max_val)
          else .ok ()
        | none => .ok ()
  | .Boolean =>
    match value with
    | .bool _ => .ok ()
    | _ => .error (.InvalidType field.id "Boolean" (get_json_type value))
  | .Select options allow_multiple =>
    if allow_multiple then
      match value with
      | .arr items => checkSelectItems field.id options items
      | _ => .error (.InvalidType field.id "Array" (get_json_type value))
    else
      match value.as_str with
      | none => .error (.InvalidType field.id "String" (get_json_type value))
      | some s =>
        if options.contains s then .ok ()
        else .error (.InvalidSelection field.id s options)
  | .DateTime =>
    match value.as_str with
    | none => .error (.InvalidType field.id "String (ISO 8601)" (get_json_type value))
    | some s =>
      if rfc3339Parses s then .ok ()
      else .error (.InvalidDateFormat field.id s)

/-- Per-field findings of the `validate_document` loop body: a required
field missing or null records `MissingRequiredField` and skips the value
check; a present non-null value contributes the `validate_value` error,
if any. -/
def fieldFindings (doc : Document) (field_def : FieldDefinition) :
    List DocumentValidationError :=
  match doc.get_value field_def.id with
  | none =>
    if field_def.required then [.MissingRequiredField field_def.id] else []
  | some v =>
    if v.isNull then
      if field_def.required then [.MissingRequiredField field_def.id] else []
    else
      match validate_value v field_def with
      | .ok _ => []
      | .error e => [e]

/-- `validate_document` from `molten-document/src/validator.rs`: a form-id
mismatch returns immediately with that single finding; otherwise the form's
fields are checked in order, all findings aggregated, and `Ok` is returned
exactly when there are none. -/
def validate_document (doc : Document) (form : FormDefinition) :
    Except (List DocumentValidationError) Unit :=
  if doc.form_id ≠ form.id then
    .error [.FormIdMismatch doc.form_id form.id]
  else
    let errors := form.fields.flatMap (fieldFindings doc)
    if errors = [] then .ok () else .error errors

/-- Serialization of `Option<f64>` (`None` becomes JSON null). -/
def optNumToJson : Option ℚ → Json
  | some q => .num q
  | none => .null

/-- Serde serialization of `FieldType` — adjacently tagged with `kind` tag,
`config` content and snake_case variant names, per
`#[serde(tag = "kind", content = "config", rename_all = "snake_case")]`:
unit variants carry only `kind`; data variants carry a `config` object with
their named fields in declaration order. -/
def fieldTypeToJson : FieldType → Json
  | .Text => .obj [("kind", .str "text")]
  | .TextArea => .obj [("kind", .str "text_area")]
  | .Number min max =>
    .obj [("kind", .str "number"),
          ("config", .obj [("min", optNumToJson min), ("max", optNumToJson max)])]
  | .Boolean => .obj [("kind", .str "boolean")]
  | .DateTime => .obj [("kind", .str "date_time")]
  | .Select options allow_multiple =>
    .obj [("kind", .str "select"),
          ("config", .obj [("options", .arr (options.map .str)),
                           ("allow_multiple", .bool allow_multiple)])]

/-- Lookup of a key in a serialized JSON object. -/
def jsonLookup (kvs : List (String × Json)) (k : String) : Option Json :=
  (kvs.find? fun kv => kv.1 == k).map (·.2)

/-- Deserialization of an `Option<f64>` field marked `#[serde(default)]`:
a missing key or JSON null is `None`, a number is `Some`, anything else is
a type error. -/
def optNumFromJson : Option Json → Option (Option ℚ)
  | none => some none
  | some .null => some none
  | some (.num q) => some (some q)
  | some _ => none

/-- Deserialization of `Vec<String>` from a JSON array. -/
def strListFromJson : List Json → Option (List String)
  | [] => some []
  | .str s :: rest => (strListFromJson rest).map (s :: ·)
  | _ => none

/-- Deserialization of a `bool` field marked `#[serde(default)]`. -/
def boolFromJsonDefaultFalse : Option Json → Option Bool
  | none => some false
  | some (.bool b) => some b
  | some _ => none

/-- Serde deserialization of `FieldType`: dispatch on the `kind` tag, then
read the `config` content for the data-carrying variants (`min`, `max` and
`allow_multiple` defaulting when absent, `options` required). -/
def fieldTypeFromJson : Json → Option FieldType
  | .obj kvs =>
    match jsonLookup kvs "kind" with
    | some (.str "text") => some .Text
    | some (.str "text_area") => some .TextArea
    | some (.str "boolean") => some .Boolean
    | some (.str "date_time") => some .DateTime
    | some (.str "number") =>
      match jsonLookup kvs "config" with
      | some (.obj cfg) =>
        match optNumFromJson (jsonLookup cfg "min") with
        | none => none
        | some min =>
          match optNumFromJson (jsonLookup cfg "max") with
          | none => none
          | some max => some (.Number min max)
      | _ => none
    | some (.str "select") =>
      match jsonLookup kvs "config" with
      | some (.obj cfg) =>
        match jsonLookup cfg "options" with
        | some (.arr items) =>
          match strListFromJson items with
          | none => none
          | some options =>
            match boolFromJsonDefaultFalse (jsonLookup cfg "allow_multiple") with
            | none => none
            | some allow_multiple => some (.Select options allow_multiple)
        | _ => none
      | _ => none
    | _ => none
  | _ => none

instance {e a : Type} [DecidableEq e] [DecidableEq a] : DecidableEq (Except e a) := fun x y =>
  match x, y with
  | .ok x, .ok y =>
    if h : x = y then .isTrue (by rw [h]) else .isFalse (fun hc => h (Except.ok.inj hc))
  | .error x, .error y =>
    if h : x = y then .isTrue (by rw [h]) else .isFalse (fun hc => h (Except.error.inj hc))
  | .ok _, .error _ => .isFalse (fun hc => Except.noConfusion hc)
  | .error _, .ok _ => .isFalse (fun hc => Except.noConfusion hc)

/-- The workflow of the engine test suite (`create_simple_workflow`):
draft (Start) → review (Normal) → closed (End), with edges submit, approve
and reject. -/
def wf_ticket : WorkflowDefinition :=
  { id := "wf_ticket", name := "Ticket Workflow",
    phases := [⟨"draft", "Draft", .Start⟩, ⟨"review", "Review", .Normal⟩,
               ⟨"closed", "Closed", .End⟩],
    transitions := [⟨"submit", "draft", "review"⟩, ⟨"approve", "review", "closed"⟩,
                    ⟨"reject", "review", "draft"⟩] }

/-- A document of `wf_ticket` sitting in the draft phase. -/
def doc_draft : Document :=
  { Document.new "doc1" "form_ticket" "wf_ticket" 0 with current_phase := "draft" }

/-- A field id of legal length containing a space, outside the
letters/digits/hyphen/underscore class. -/
def cex_field_builder : FieldBuilder := ⟨"a b", "L", .Text, false, none⟩

/-- A 101-character phase label, violating the label length rule. -/
def long_label : String := String.mk (List.replicate 101 'x')

/-- A builder with both a structural violation (over-long phase label) and a
transition whose target names no phase. -/
def cex_workflow_builder : WorkflowBuilder :=
  ⟨"w", "W", [⟨"p", long_label, .Normal⟩], [⟨"t", "p", "ghost"⟩]⟩

/-- The number-field form of spec scenario A: `severity` with min 1, max 5. -/
def form_A : FormDefinition :=
  ⟨"ticket", "Ticket", 1,
   [⟨"severity", "Severity", .Number (some 1) (some 5), false, none⟩]⟩

/-- A document holding one value under the `severity` key. -/
def severity_doc (v : Json) : Document :=
  { id := "doc1", form_id := "ticket", workflow_id := "wf",
    data := [("severity", v)], current_phase := "",
    created_at := 0, updated_at := 0 }

/-- Complete case analysis of `transition`: every run ends in one of the
five error early-returns (document untouched) or in the success return with
`current_phase` set to the target. -/
theorem transition_cases (doc : Document) (wf : WorkflowDefinition) (target : String) :
    transition doc wf target = (doc, some (.WorkflowMismatch doc.workflow_id wf.id)) ∨
    transition doc wf target = (doc, some (.UnknownPhase target)) ∨
    transition doc wf target = (doc, some (.UnknownPhase "No start phase defined")) ∨
    transition doc wf target = (doc, some (.InvalidTransition "WAITING_TO_START" target)) ∨
    transition doc wf target = (doc, some (.InvalidTransition doc.current_phase target)) ∨
    transition doc wf target = ({doc with current_phase := target}, none) := by
  unfold transition
  by_cases h1 : doc.workflow_id ≠ wf.id
  · rw [if_pos h1]
    exact Or.inl rfl
  rw [if_neg h1]
  by_cases h2 : (wf.get_phase target).isNone = true
  · rw [if_pos h2]
    exact Or.inr (Or.inl rfl)
  rw [if_neg h2]
  by_cases h3 : doc.current_phase = ""
  · rw [if_pos h3]
    cases hsp : wf.get_start_phase with
    | none => exact Or.inr (Or.inr (Or.inl rfl))
    | some sp =>
      by_cases h4 : sp.id = target
      · exact Or.inr (Or.inr (Or.inr (Or.inr (Or.inr (by simp [h4])))))
      · exact Or.inr (Or.inr (Or.inr (Or.inl (by simp [h4]))))
  rw [if_neg h3]
  by_cases h5 : wf.can_transition doc.current_phase target = true
  · rw [if_pos h5]
    exact Or.inr (Or.inr (Or.inr (Or.inr (Or.inr rfl))))
  · rw [if_neg h5]
    exact Or.inr (Or.inr (Or.inr (Or.inr (Or.inl rfl))))

/-- C1: for a document in a non-empty current phase, against a workflow with
matching id that contains the target phase, `transition` succeeds exactly
when the workflow declares an edge from the current phase to the target;
on success only `current_phase` is set to the target, and on failure the
error is `InvalidTransition` carrying the current and target phase ids. -/
theorem transition_known_phase_edge_iff (doc : Document) (wf : WorkflowDefinition)
    (target : String)
    (hcur : doc.current_phase ≠ "")
    (hwf : doc.workflow_id = wf.id)
    (hph : (wf.get_phase target).isSome = true) :
    ((∃ t ∈ wf.transitions, t.from_ = doc.current_phase ∧ t.to_ = target) →
      transition doc wf target = ({doc with current_phase := target}, none)) ∧
    ((¬ ∃ t ∈ wf.transitions, t.from_ = doc.current_phase ∧ t.to_ = target) →
      transition doc wf target =
        (doc, some (.InvalidTransition doc.current_phase target))) := by
  obtain ⟨p, hp⟩ := Option.isSome_iff_exists.mp hph
  have h1 : ¬(doc.workflow_id ≠ wf.id) := by simp [hwf]
  have h2 : ¬((wf.get_phase target).isNone = true) := by simp [hp]
  have key : transition doc wf target =
      (if wf.can_transition doc.current_phase target then
        ({ doc with current_phase := target }, none)
      else (doc, some (.InvalidTransition doc.current_phase target))) := by
    unfold transition
    rw [if_neg h1, if_neg h2, if_neg hcur]
  have hcan : (wf.can_transition doc.current_phase target = true) ↔
      (∃ t ∈ wf.transitions, t.from_ = doc.current_phase ∧ t.to_ = target) := by
    simp [WorkflowDefinition.can_transition, List.any_eq_true]
  constructor
  · intro hex
    rw [key, if_pos (hcan.mpr hex)]
  · intro hex
    rw [key, if_neg (fun hc => hex (hcan.mp hc))]

/-- C1 witness: in `wf_ticket`, a document in draft moves to review along
the submit edge. -/
theorem transition_known_phase_edge_iff_witness :
    doc_draft.current_phase ≠ "" ∧ doc_draft.workflow_id = wf_ticket.id ∧
    (wf_ticket.get_phase "review").isSome = true ∧
    transition doc_draft wf_ticket "review" =
      ({doc_draft with current_phase := "review"}, none) := by
  refine ⟨by decide, rfl, rfl, ?_⟩
  exact (transition_known_phase_edge_iff doc_draft wf_ticket "review"
      (by decide) rfl rfl).1
    ⟨⟨"submit", "draft", "review"⟩, by decide, rfl, rfl⟩

/-- C2: for an uninitialized document (empty `current_phase`), against a
workflow with matching id that contains the target phase: when the workflow
has a start phase (the first phase of `Start` type), the transition succeeds
exactly when the target is that phase id, failing otherwise with
`InvalidTransition` whose current is `WAITING_TO_START`; when no phase has
`Start` type the result is `UnknownPhase` with message
`No start phase defined`. -/
theorem transition_uninitialized_start_only (doc : Document)
    (wf : WorkflowDefinition) (target : String)
    (hcur : doc.current_phase = "")
    (hwf : doc.workflow_id = wf.id)
    (hph : (wf.get_phase target).isSome = true) :
    (∀ sp, wf.get_start_phase = some sp →
      ((sp.id = target →
        transition doc wf target = ({doc with current_phase := target}, none)) ∧
       (sp.id ≠ target →
        transition doc wf target =
          (doc, some (.InvalidTransition "WAITING_TO_START" target))))) ∧
    (wf.get_start_phase = none →
      transition doc wf target =
        (doc, some (.UnknownPhase "No start phase defined"))) := by
  obtain ⟨p, hp⟩ := Option.isSome_iff_exists.mp hph
  have h1 : ¬(doc.workflow_id ≠ wf.id) := by simp [hwf]
  have h2 : ¬((wf.get_phase target).isNone = true) := by simp [hp]
  have key : transition doc wf target =
      (match wf.get_start_phase with
       | some start_phase =>
         if start_phase.id = target then
           ({ doc with current_phase := target }, none)
         else (doc, some (.InvalidTransition "WAITING_TO_START" target))
       | none => (doc, some (.UnknownPhase "No start phase defined"))) := by
    unfold transition
    rw [if_neg h1, if_neg h2, if_pos hcur]
  constructor
  · intro sp hsp
    rw [key, hsp]
    constructor
    · intro hid
      simp [hid]
    · intro hid
      simp [hid]
  · intro hsp
    rw [key, hsp]

/-- C2 witness: a brand-new document of `wf_ticket` may move to the start
phase draft. -/
theorem transition_uninitialized_start_only_witness :
    (Document.new "doc1" "form_ticket" "wf_ticket" 0).current_phase = "" ∧
    (Document.new "doc1" "form_ticket" "wf_ticket" 0).workflow_id = wf_ticket.id ∧
    (wf_ticket.get_phase "draft").isSome = true ∧
    transition (Document.new "doc1" "form_ticket" "wf_ticket" 0) wf_ticket "draft" =
      ({Document.new "doc1" "form_ticket" "wf_ticket" 0 with current_phase := "draft"},
       none) := by
  refine ⟨rfl, rfl, rfl, ?_⟩
  exact ((transition_uninitialized_start_only
      (Document.new "doc1" "form_ticket" "wf_ticket" 0) wf_ticket "draft"
      rfl rfl rfl).1 ⟨"draft", "Draft", .Start⟩ rfl).1 rfl

/-- C3: whenever `transition` returns an error, the document after the call
equals the document before it in every field. -/
theorem transition_error_leaves_document_unchanged (doc : Document)
    (wf : WorkflowDefinition) (target : String) (e : WorkflowError)
    (h : (transition doc wf target).2 = some e) :
    (transition doc wf target).1 = doc := by
  rcases transition_cases doc wf target with hc | hc | hc | hc | hc | hc <;> rw [hc]
  rw [hc] at h
  cases h

/-- C3 witness: the illegal jump draft → closed fails with
`InvalidTransition` and leaves the document as it was. -/
theorem transition_error_leaves_document_unchanged_witness :
    (transition doc_draft wf_ticket "closed").2 =
      some (.InvalidTransition "draft" "closed") ∧
    (transition doc_draft wf_ticket "closed").1 = doc_draft := by
  refine ⟨rfl, ?_⟩
  exact transition_error_leaves_document_unchanged doc_draft wf_ticket "closed"
    (.InvalidTransition "draft" "closed") rfl

/-- C4: `Document::new` yields an empty data map and the empty-string
`current_phase`, the uninitialized sentinel of the workflow state machine. -/
theorem document_new_starts_uninitialized (id form_id workflow_id : String) (now : Nat) :
    (Document.new id form_id workflow_id now).data = [] ∧
    (Document.new id form_id workflow_id now).current_phase = "" := ⟨rfl, rfl⟩

/-- C5 counterexample: the id `a b` has legal length but contains a space,
outside the letters/digits/hyphen/underscore class, yet
`FieldBuilder::build` succeeds — `FieldDefinition` declares no
character-class rule, so the claim that such a builder fails is false. -/
theorem field_build_ignores_character_class_cex :
    1 ≤ ("a b" : String).length ∧ ("a b" : String).length ≤ 64 ∧
    "a b".data.contains ' ' = true ∧
    cex_field_builder.build = .ok ⟨"a b", "L", .Text, false, none⟩ :=
  ⟨by decide, by decide, by decide, rfl⟩

/-- C5 amended: `FieldBuilder::build` checks only the length rules: every
builder whose id has length 1-64 and whose label has length 1-100 builds
successfully with exactly the supplied values, regardless of the characters
used. -/
theorem field_build_length_only (b : FieldBuilder)
    (hid : 1 ≤ b.id.length ∧ b.id.length ≤ 64)
    (hlabel : 1 ≤ b.label.length ∧ b.label.length ≤ 100) :
    b.build = .ok ⟨b.id, b.label, b.field_type, b.required, b.description⟩ := by
  have h : FieldDefinition.validateFindings
      ⟨b.id, b.label, b.field_type, b.required, b.description⟩ = [] := by
    simp [FieldDefinition.validateFindings, lengthFindings, hid, hlabel]
  simp [FieldBuilder.build, h]

/-- C5 amended witness: a well-formed id and label build successfully. -/
theorem field_build_length_only_witness :
    1 ≤ ("a-b_1" : String).length ∧ ("a-b_1" : String).length ≤ 64 ∧
    1 ≤ ("Label" : String).length ∧ ("Label" : String).length ≤ 100 ∧
    FieldBuilder.build ⟨"a-b_1", "Label", .Text, true, some "d"⟩ =
      .ok ⟨"a-b_1", "Label", .Text, true, some "d"⟩ := by
  refine ⟨by decide, by decide, by decide, by decide, ?_⟩
  exact field_build_length_only ⟨"a-b_1", "Label", .Text, true, some "d"⟩
    ⟨by decide, by decide⟩ ⟨by decide, by decide⟩

/-- C6 counterexample: a builder with both an over-long phase label and a
transition to a missing phase returns only the structural `length` finding;
the `invalid_transition_target` finding the graph-integrity pass would
report (third conjunct) is absent from the returned set, so the passes are
not merged. -/
theorem workflow_build_not_merged_cex :
    cex_workflow_builder.build = .error [⟨"phases.label", "length"⟩] ∧
    ([(⟨"phases.label", "length"⟩ : ValidationFinding)].contains
      ⟨"transitions", "invalid_transition_target"⟩ = false) ∧
    validate_workflow_integrity_findings
      ⟨"w", "W", [⟨"p", long_label, .Normal⟩], [⟨"t", "p", "ghost"⟩]⟩ =
      [⟨"transitions", "invalid_transition_target"⟩] :=
  ⟨rfl, by decide, rfl⟩

/-- C6 amended: the structural pass runs first and, when it finds any
violation, `WorkflowBuilder::build` returns exactly the structural findings;
graph-integrity findings surface only when the structural pass is clean. -/
theorem workflow_build_structural_pass_first (b : WorkflowBuilder)
    (hs : WorkflowDefinition.validateFindings
      ⟨b.id, b.name, b.phases, b.transitions⟩ ≠ []) :
    b.build = .error
      (WorkflowDefinition.validateFindings ⟨b.id, b.name, b.phases, b.transitions⟩) := by
  unfold WorkflowBuilder.build
  rw [if_neg hs]

/-- C6 amended witness: the double-violation builder returns the structural
findings alone. -/
theorem workflow_build_structural_pass_first_witness :
    WorkflowDefinition.validateFindings
      ⟨"w", "W", [⟨"p", long_label, .Normal⟩], [⟨"t", "p", "ghost"⟩]⟩ ≠ [] ∧
    cex_workflow_builder.build = .error
      (WorkflowDefinition.validateFindings
        ⟨"w", "W", [⟨"p", long_label, .Normal⟩], [⟨"t", "p", "ghost"⟩]⟩) := by
  refine ⟨by decide, ?_⟩
  exact workflow_build_structural_pass_first cex_workflow_builder (by decide)

/-- C7: a form-id mismatch makes `validate_document` return exactly the
single `FormIdMismatch` finding carrying both ids; no per-field check
contributes anything. -/
theorem validate_document_form_id_mismatch (doc : Document) (form : FormDefinition)
    (h : doc.form_id ≠ form.id) :
    validate_document doc form = .error [.FormIdMismatch doc.form_id form.id] := by
  unfold validate_document
  rw [if_pos h]

/-- C7 witness: a document bound to form `other` validated against form
`ticket`. -/
theorem validate_document_form_id_mismatch_witness :
    ({ severity_doc .null with form_id := "other" } : Document).form_id ≠ form_A.id ∧
    validate_document { severity_doc .null with form_id := "other" } form_A =
      .error [.FormIdMismatch "other" "ticket"] := by
  refine ⟨by decide, ?_⟩
  exact validate_document_form_id_mismatch
    { severity_doc .null with form_id := "other" } form_A (by decide)

/-- C8: for the Number field `severity` with min 1 and max 5, the value 0.5
reports `ValueTooLow` with min 1, the value 10 reports `ValueTooHigh` with
max 5, and the values 3, 1, and 5 produce no finding — both bounds
inclusive. -/
theorem validate_document_number_bounds :
    validate_document (severity_doc (.num (mkRat 1 2))) form_A =
      .error [.ValueTooLow "severity" (mkRat 1 2) 1] ∧
    validate_document (severity_doc (.num 10)) form_A =
      .error [.ValueTooHigh "severity" 10 5] ∧
    validate_document (severity_doc (.num 3)) form_A = .ok () ∧
    validate_document (severity_doc (.num 1)) form_A = .ok () ∧
    validate_document (severity_doc (.num 5)) form_A = .ok () := by
  refine ⟨?_, ?_, ?_, ?_, ?_⟩ <;> decide

/-- Deserializing a serialized list of strings gives the list back. -/
theorem strListFromJson_map (l : List String) :
    strListFromJson (l.map Json.str) = some l := by
  induction l with
  | nil => rfl
  | cons h t ih => simp [strListFromJson, ih]

/-- C9: serializing any `FieldType` and parsing the result reproduces an
equal value, and the unit variant `Text` serializes to exactly the object
with the single `kind` entry `text` and no `config` key. -/
theorem fieldType_serde_round_trip :
    (∀ ft : FieldType, fieldTypeFromJson (fieldTypeToJson ft) = some ft) ∧
    fieldTypeToJson .Text = .obj [("kind", .str "text")] := by
  constructor
  · intro ft
    cases ft with
    | Text => rfl
    | TextArea => rfl
    | Boolean => rfl
    | DateTime => rfl
    | Number mn mx => cases mn <;> cases mx <;> rfl
    | Select opts multi =>
      simp [fieldTypeToJson, fieldTypeFromJson, jsonLookup, List.find?,
        strListFromJson_map, boolFromJsonDefaultFalse]
  · rfl

/-- C10: `transition` never returns `NoCurrentPhase`: every run either
succeeds or fails with `WorkflowMismatch`, `UnknownPhase`, or
`InvalidTransition`. -/
theorem transition_never_NoCurrentPhase (doc : Document) (wf : WorkflowDefinition)
    (target : String) :
    (transition doc wf target).2 = none ∨
    (∃ a b, (transition doc wf target).2 = some (.WorkflowMismatch a b)) ∨
    (∃ p, (transition doc wf target).2 = some (.UnknownPhase p)) ∨
    (∃ c t, (transition doc wf target).2 = some (.InvalidTransition c t)) := by
  rcases transition_cases doc wf target with hc | hc | hc | hc | hc | hc <;> rw [hc]
  · exact Or.inr (Or.inl ⟨_, _, rfl⟩)
  · exact Or.inr (Or.inr (Or.inl ⟨_, rfl⟩))
  · exact Or.inr (Or.inr (Or.inl ⟨_, rfl⟩))
  · exact Or.inr (Or.inr (Or.inr ⟨_, _, rfl⟩))
  · exact Or.inr (Or.inr (Or.inr ⟨_, _, rfl⟩))
  · exact Or.inl rfl

end Molten
